import Mathlib

/-!
Verification development for the interactive-map client core
(`js/index.js`): Location Store, Profile Resolver, Marker Presenter,
Search Filter and Mutation Coordinator, shallowly embedded as pure
Lean functions.  Backend calls (Firestore / Storage) are modelled by
explicit outcome parameters, and each mutation operation is embedded
as a function producing the ordered trace of backend/UI events it
performs.
-/

namespace MapApp

/-- A JavaScript number as relevant here: NaN, signed infinity, or a
finite value (modelled as a rational; IEEE rounding is irrelevant to
every property below, which only depends on NaN / infinite / finite
classification and on exact pass-through of values). -/
inductive JSNum where
  | nan : JSNum
  | inf (neg : Bool) : JSNum
  | fin (v : ℚ) : JSNum
deriving DecidableEq, Repr

/-- `isNaN` on a JS number. -/
def JSNum.isNaN : JSNum → Bool
  | .nan => true
  | _ => false

/-- A Firestore field value as stored in a location document:
a number, a string, or absent (`undefined`). -/
inductive FSVal where
  | num (n : JSNum) : FSVal
  | str (s : String) : FSVal
  | undef : FSVal
deriving DecidableEq, Repr

/-- Numeric value of a list of decimal digits. -/
def digitsVal (ds : List Char) : ℕ :=
  ds.foldl (fun a c => a * 10 + (c.toNat - 48)) 0

/-- Split a character list into its maximal leading run of decimal
digits and the rest. -/
def takeDigits (cs : List Char) : List Char × List Char :=
  (cs.takeWhile Char.isDigit, cs.dropWhile Char.isDigit)

/-- Exponent part of a JS float literal: optional sign then digits;
if no digit follows, the exponent marker is not part of the parsed
prefix and contributes exponent 0 (JS longest-valid-prefix rule). -/
def expPart (cs : List Char) : ℤ :=
  match cs with
  | '+' :: rest =>
    let ds := (takeDigits rest).1
    if ds = [] then 0 else (digitsVal ds : ℤ)
  | '-' :: rest =>
    let ds := (takeDigits rest).1
    if ds = [] then 0 else -(digitsVal ds : ℤ)
  | _ =>
    let ds := (takeDigits cs).1
    if ds = [] then 0 else (digitsVal ds : ℤ)

/-- JS `parseFloat` after leading whitespace and an optional sign have
been consumed: either the literal `Infinity`, or a decimal literal
`digits [. digits] [e|E exponent]` parsed as the longest valid prefix;
anything else is NaN. -/
def parseFloatAfterSign (neg : Bool) (cs : List Char) : JSNum :=
  if "Infinity".toList.isPrefixOf cs then .inf neg
  else
    let ipr := takeDigits cs
    let fpr : List Char × List Char :=
      match ipr.2 with
      | '.' :: rest => takeDigits rest
      | _ => ([], ipr.2)
    if ipr.1 = [] ∧ fpr.1 = [] then .nan
    else
      let e : ℤ :=
        match fpr.2 with
        | 'e' :: rest => expPart rest
        | 'E' :: rest => expPart rest
        | _ => 0
      let mantNum : ℕ := digitsVal ipr.1 * 10 ^ fpr.1.length + digitsVal fpr.1
      let v : ℚ :=
        if 0 ≤ e then mkRat (mantNum * 10 ^ e.toNat) (10 ^ fpr.1.length)
        else mkRat mantNum (10 ^ fpr.1.length * 10 ^ (-e).toNat)
      .fin (if neg then -v else v)

/-- JS `parseFloat` on a string: skip leading whitespace, consume an
optional sign, then parse the longest valid float prefix. -/
def parseFloatStr (s : String) : JSNum :=
  match s.toList.dropWhile Char.isWhitespace with
  | '-' :: rest => parseFloatAfterSign true rest
  | '+' :: rest => parseFloatAfterSign false rest
  | cs => parseFloatAfterSign false cs

/-- JS `parseFloat` applied to a Firestore field value.  A number
round-trips through its string representation unchanged; `undefined`
stringifies to `"undefined"`, which parses to NaN. -/
def parseFloat : FSVal → JSNum
  | .num n => n
  | .str s => parseFloatStr s
  | .undef => .nan

/-- JS `x || d` for a possibly-absent string `x`: absent (`undefined`)
and the empty string are falsy and yield the default. -/
def jsOrStr (v : Option String) (d : String) : String :=
  match v with
  | none => d
  | some s => if s = "" then d else s

/-- A resolved user profile. -/
structure Profile where
  displayName : String
  email : String
deriving DecidableEq, Repr

/-- The default profile used for empty ids and failed resolutions. -/
def defaultProfile : Profile := ⟨"Unknown User", ""⟩

/-- The session-wide profile cache (`userProfileCache`), modelled as an
association list; `set` conses, `lookup` returns the newest binding. -/
abbrev Cache := List (String × Profile)

/-- Cache lookup (`userProfileCache.get`). -/
def profGet (c : Cache) (u : String) : Option Profile :=
  List.lookup u c

/-- Cache insertion (`userProfileCache.set`). -/
def profSet (c : Cache) (u : String) (p : Profile) : Cache :=
  (u, p) :: c

/-- Outcome of the backend read of a user document: found with its
(possibly absent) `displayName`/`email` fields, absent, or a thrown
fetch error. -/
inductive FetchOutcome where
  | found (displayName email : Option String) : FetchOutcome
  | absent : FetchOutcome
  | failure : FetchOutcome
deriving DecidableEq, Repr

/-- `fetchUserProfile(userId)`: returns the resolved profile, the
updated cache, and whether a backend fetch was issued.  Empty id
returns the default without fetching or caching; a cache hit returns
immediately; on a miss, a found record synthesizes the profile and
caches it, while an absent record or a thrown error falls through to
the default profile, which is cached. -/
def fetchUserProfile (c : Cache) (userId : String) (o : FetchOutcome) :
    Profile × Cache × Bool :=
  if userId = "" then (defaultProfile, c, false)
  else
    match profGet c userId with
    | some p => (p, c, false)
    | none =>
      match o with
      | .found dn em =>
        let profile : Profile :=
          ⟨jsOrStr dn (jsOrStr em "Unknown User"), jsOrStr em ""⟩
        (profile, profSet c userId profile, true)
      | .absent => (defaultProfile, profSet c userId defaultProfile, true)
      | .failure => (defaultProfile, profSet c userId defaultProfile, true)

/-- Run a sequence of `fetchUserProfile` calls for one id, threading
the cache; the backend outcome of call `i` is `outs[i]`.  Returns the
per-call (profile, didFetch) results and the final cache. -/
def runResolves (c : Cache) (u : String) (outs : List FetchOutcome) :
    List (Profile × Bool) × Cache :=
  match outs with
  | [] => ([], c)
  | o :: rest =>
    let r := fetchUserProfile c u o
    let rec' := runResolves r.2.1 u rest
    ((r.1, r.2.2) :: rec'.1, rec'.2)

/-- A raw location document as returned by the Firestore query:
its id plus the fields the client reads (absent fields are `none` /
`FSVal.undef`). -/
structure RawDoc where
  id : String
  latitude : FSVal
  longitude : FSVal
  title : Option String
  notes : Option String
  address : Option String
  userId : Option String
  upvotes : Option (List String)
  downvotes : Option (List String)
  imageUrl : Option String
deriving DecidableEq, Repr

/-- One entry of `locationData` collected by the first pass of
`loadLocationsFromFirestore`. -/
structure LocationData where
  locationId : String
  title : String
  notes : String
  address : String
  userId : String
  lat : JSNum
  lon : JSNum
deriving DecidableEq, Repr

/-- `Set.add`: insertion-ordered set insert used for `uniqueUserIds`. -/
def insertUnique (l : List String) (u : String) : List String :=
  if u ∈ l then l else l ++ [u]

/-- Loop body of the first pass of `loadLocationsFromFirestore`:
parse and default the fields of one document; keep it only when both
coordinates parse without NaN, and in that case also add its non-empty
userId to the distinct-owner set. -/
def firstPassStep (acc : List LocationData × List String) (d : RawDoc) :
    List LocationData × List String :=
  let lat := parseFloat d.latitude
  let lon := parseFloat d.longitude
  let title := jsOrStr d.title "Untitled Location"
  let notes := jsOrStr d.notes ""
  let address := jsOrStr d.address ""
  let userId := jsOrStr d.userId ""
  if !lat.isNaN && !lon.isNaN then
    (acc.1 ++ [⟨d.id, title, notes, address, userId, lat, lon⟩],
     if userId ≠ "" then insertUnique acc.2 userId else acc.2)
  else acc

/-- First pass of `loadLocationsFromFirestore`: collect the kept
location data and the distinct non-empty userIds, in encounter
order. -/
def firstPass (docs : List RawDoc) : List LocationData × List String :=
  docs.foldl firstPassStep ([], [])

/-- The concurrent prefetch of all distinct user profiles
(`Promise.all(userIds.map(fetchUserProfile))`); the cache makes the
fan-out populate each id once. -/
def prefetchProfiles (c : Cache) (users : String → FetchOutcome)
    (ids : List String) : Cache :=
  ids.foldl (fun acc u => (fetchUserProfile acc u (users u)).2.1) c

/-- A marker view-model (`markerObj`); the rendered Leaflet marker
handle carries no further observable state and is elided. -/
structure MarkerObj where
  locationId : String
  title : String
  notes : String
  address : String
  user : String
  userId : String
  lat : JSNum
  lon : JSNum
  upvotes : List String
  downvotes : List String
deriving DecidableEq, Repr

/-- Second pass of `loadLocationsFromFirestore`: for each kept
location, resolve the owner profile through the cache and join the
vote arrays looked up from the original query snapshot by id. -/
def secondPass (docs : List RawDoc) (users : String → FetchOutcome) :
    Cache → List LocationData → List MarkerObj × Cache
  | c, [] => ([], c)
  | c, ld :: rest =>
    let r := fetchUserProfile c ld.userId (users ld.userId)
    let username := r.1.displayName
    let docOpt := docs.find? (fun d => d.id = ld.locationId)
    let upv := match docOpt with
      | some d => d.upvotes.getD []
      | none => []
    let dnv := match docOpt with
      | some d => d.downvotes.getD []
      | none => []
    let m : MarkerObj :=
      ⟨ld.locationId, ld.title, ld.notes, ld.address, username, ld.userId,
       ld.lat, ld.lon, upv, dnv⟩
    let tail := secondPass docs users r.2.1 rest
    (m :: tail.1, tail.2)

/-- The Location Store's observable state: the in-memory view-model
list (`allMarkers`) and the markers currently registered with the
cluster group (`markers`). -/
structure StoreState where
  allMarkers : List MarkerObj
  rendered : List MarkerObj
deriving DecidableEq, Repr

/-- `loadLocationsFromFirestore()`: clears the rendered cluster layers
first, then fetches; a fetch error is caught, surfaces one error
message, and leaves `allMarkers` (assigned only after a successful
fetch) untouched; a successful fetch rebuilds both the in-memory list
and the rendered set wholesale (batched adds all complete within the
operation).  Returns the new store state, the updated profile cache,
and the list of error messages shown. -/
def loadLocationsFromFirestore (st : StoreState) (c : Cache)
    (users : String → FetchOutcome) (fetched : Except Unit (List RawDoc)) :
    StoreState × Cache × List String :=
  let cleared : StoreState := { st with rendered := [] }
  match fetched with
  | .error _ =>
    (cleared, c, ["Failed to load locations. Please refresh the page."])
  | .ok docs =>
    let fp := firstPass docs
    let c1 := prefetchProfiles c users fp.2
    let sp := secondPass docs users c1 fp.1
    ({ allMarkers := sp.1, rendered := sp.1 }, sp.2, [])

/-- Score color: green for positive, red for negative, gray otherwise
(the code initializes gray and overwrites for the signed cases). -/
def scoreColorOf (voteScore : ℤ) : String :=
  if 0 < voteScore then "#28a745"
  else if voteScore < 0 then "#dc3545"
  else "#666"

/-- Score sign marker (`scorePrefix` in the code): a leading `+` for
positive scores, nothing otherwise (negative numbers carry their own
minus sign when stringified). -/
def scoreSignOf (voteScore : ℤ) : String :=
  if 0 < voteScore then "+" else ""

/-- An ASCII apostrophe, used inside the generated inline handlers. -/
def quoteChar : String := String.singleton (Char.ofNat 39)

/-- The owner-only Edit/Delete action block of a popup. -/
def popupActions (locationId : String) : String :=
  "\n                <div class=\"popup-actions\">\n                    <button class=\"btn btn-primary btn-popup\" onclick=\"window.editLocation(" ++
  quoteChar ++ locationId ++ quoteChar ++
  ")\">Edit</button>\n                    <button class=\"btn btn-danger btn-popup\" onclick=\"window.confirmDeleteLocation(" ++
  quoteChar ++ locationId ++ quoteChar ++
  ")\">Delete</button>\n                </div>\n            "

/-- The vote-score `<div>` of the popup: score with color and sign
convention, followed by the raw up/down counts. -/
def voteScoreBlock (upvoteCount downvoteCount : ℕ) : String :=
  let voteScore : ℤ := (upvoteCount : ℤ) - (downvoteCount : ℤ)
  let scoreColor := scoreColorOf voteScore
  let sign := scoreSignOf voteScore
  "<div style=\"margin: 8px 0; padding: 6px 10px; background: #f8f9fa; border-radius: 4px; border-left: 3px solid " ++
  scoreColor ++ ";\">\n            <strong style=\"color: " ++ scoreColor ++
  "; font-size: 14px;\">" ++ "Score: " ++ sign ++ toString voteScore ++
  "</strong>\n            <span style=\"color: #666; font-size: 12px; margin-left: 8px;\">(" ++
  "↑" ++ toString upvoteCount ++ " ↓" ++ toString downvoteCount ++
  ")</span>\n        </div>"

/-- `createPopupContent`: builds the popup markup — title, the
vote-score block, then address / owner / notes when non-empty, the
details link, and the owner-only action buttons when the current
user's uid equals the record's userId.  `lat`/`lon` are accepted but
unused, as in the code. -/
def createPopupContent (locationId title : String) (lat lon : JSNum)
    (notes address user userId : String)
    (upvotes downvotes : List String) (currentUser : Option String) : String :=
  let _ := lat
  let _ := lon
  let upvoteCount := upvotes.length
  let downvoteCount := downvotes.length
  let p0 := "<b>" ++ title ++ "</b><br>"
  let p1 := p0 ++ voteScoreBlock upvoteCount downvoteCount
  let p2 := if address ≠ "" then p1 ++ "<br><strong>Address:</strong><br>" ++ address else p1
  let p3 := if user ≠ "" then p2 ++ "<br><strong>Added By:</strong><br>" ++ user else p2
  let p4 := if notes ≠ "" then p3 ++ "<br><br><strong>Notes:</strong><br>" ++ notes else p3
  let p5 := p4 ++ "<br><br><a href=\"./location.html?id=" ++ locationId ++
    "\" class=\"btn btn-primary btn-popup\" style=\"color:white;\">View Details</a>"
  match currentUser with
  | some uid => if userId = uid then p5 ++ popupActions locationId else p5
  | none => p5

/-- JS `String.prototype.toLowerCase`, modelled as the per-character
ASCII case mapping (no field or query in this system depends on
non-ASCII case folding). -/
def jsToLower (s : String) : String :=
  ⟨s.data.map Char.toLower⟩

/-- JS `String.prototype.trim`: drop leading and trailing whitespace. -/
def jsTrim (s : String) : String :=
  ⟨((s.data.dropWhile Char.isWhitespace).reverse.dropWhile Char.isWhitespace).reverse⟩

/-- JS `haystack.includes(needle)`: substring test. -/
def jsIncludes (haystack needle : String) : Bool :=
  decide (needle.data <:+: haystack.data)

/-- The per-marker match test of `filterMarkers` against an already
trimmed/lowercased term: substring match on lowercased title, notes,
address or owner display name (the `|| ''` guards are identities here
since view-model fields are strings). -/
def markerMatches (term : String) (m : MarkerObj) : Bool :=
  jsIncludes (jsToLower m.title) term ||
  jsIncludes (jsToLower m.notes) term ||
  jsIncludes (jsToLower m.address) term ||
  jsIncludes (jsToLower m.user) term

/-- `filterMarkers(searchTerm)`: the set of markers (re)added to the
cluster group — everything when the trimmed, lowercased term is empty,
otherwise the markers matching it, in list order. -/
def filterMarkers (searchTerm : String) (allMarkers : List MarkerObj) :
    List MarkerObj :=
  let term := jsToLower (jsTrim searchTerm)
  if term = "" then allMarkers
  else allMarkers.filter (markerMatches term)

/-- Modelled from the spec claim's formula (C6): the visible set is
`{m ∈ all | trim(lower(q)) = "" ∨ trim(lower(q))` is a substring of
the lowercased title, notes, address or owner display name`}`. -/
def visibleSpec (q : String) (all : List MarkerObj) : List MarkerObj :=
  let t := jsTrim (jsToLower q)
  all.filter (fun m => t = "" ||
    jsIncludes (jsToLower m.title) t ||
    jsIncludes (jsToLower m.notes) t ||
    jsIncludes (jsToLower m.address) t ||
    jsIncludes (jsToLower m.user) t)

/-- An observable event of a mutation operation, in issue order:
backend requests (document reads/writes, storage upload/delete), the
full Location Store reload, and the user-visible notifications. -/
inductive Event where
  | getDocE (id : String) : Event
  | addDocE : Event
  | updateDocE (id : String) : Event
  | deleteDocE (id : String) : Event
  | stUpload : Event
  | stDelete (path : String) : Event
  | reloadE : Event
  | showErrE (msg : String) : Event
  | showOkE (msg : String) : Event
deriving DecidableEq, Repr

/-- Whether an event is a backend write (document write or storage
write/delete). -/
def Event.isBackendWrite : Event → Bool
  | .addDocE => true
  | .updateDocE _ => true
  | .deleteDocE _ => true
  | .stUpload => true
  | .stDelete _ => true
  | _ => false

/-- `decodeURIComponent`, modelled as the identity: percent-decoding
of the extracted storage path does not affect any property here. -/
def decodeURIComponent (s : String) : String := s

/-- Worker for JS `String.prototype.split` with a non-empty separator:
fuel-based structural recursion (one unit of fuel per character, which
always suffices since every step consumes at least one character). -/
def jsSplitAux (sep : List Char) : ℕ → List Char → List Char → List (List Char)
  | _, [], acc => [acc.reverse]
  | 0, cs, acc => [acc.reverse ++ cs]
  | fuel + 1, c :: rest, acc =>
    if sep ≠ [] ∧ sep.isPrefixOf (c :: rest) then
      acc.reverse :: jsSplitAux sep fuel ((c :: rest).drop sep.length) []
    else jsSplitAux sep fuel rest (c :: acc)

/-- JS `s.split(sep)` for a non-empty separator. -/
def jsSplit (s sep : String) : List String :=
  (jsSplitAux sep.data s.data.length s.data []).map fun l => ⟨l⟩

/-- `deleteImageFromStorage(imageUrl)`: extracts the storage path from
the download URL (`split('/o/')[1]`, then `split('?')[0]`, decoded)
and issues the delete.  The guard `if (!urlParts) return` fires on
both falsy values of `split('/o/')[1]`: `undefined` (no `/o/` in the
URL, the `none` branch) and the empty string (URL ending in `/o/`),
issuing nothing in either case.  A failed delete is caught and
swallowed (never rethrown), so the trace is the same for either
outcome. -/
def deleteImageFromStorage (imageUrl : String) (outcome : Except Unit Unit) :
    List Event :=
  match (jsSplit imageUrl "/o/").get? 1 with
  | none => []
  | some urlParts =>
    if urlParts = "" then []
    else
      let pathPart := ((jsSplit urlParts "?").headD "")
      let storagePath := decodeURIComponent pathPart
      match outcome with
      | .ok _ => [.stDelete storagePath]
      | .error _ => [.stDelete storagePath]

/-- `uploadImageToStorage`: issues the upload and either returns the
download URL or rethrows the error (the file-name construction from
`Date.now()` is environment dependent and not observable here). -/
def uploadImageToStorage (outcome : Except Unit String) :
    List Event × Except Unit String :=
  ([.stUpload], outcome)

/-- The edit-modal state read by `updateLocation` and
`handleRemoveImage`. -/
structure EditState where
  editingLocationId : Option String
  editTitle : String
  editNotes : String
  editAddress : String
  selectedEditImage : Bool
  currentLocationImageUrl : Option String
deriving DecidableEq, Repr

instance {ε α : Type} [DecidableEq ε] [DecidableEq α] :
    DecidableEq (Except ε α) := fun x y =>
  match x, y with
  | .ok a, .ok b =>
    if h : a = b then .isTrue (congrArg Except.ok h)
    else .isFalse (fun hh => h (Except.ok.inj hh))
  | .error a, .error b =>
    if h : a = b then .isTrue (congrArg Except.error h)
    else .isFalse (fun hh => h (Except.error.inj hh))
  | .ok _, .error _ => .isFalse (fun hh => Except.noConfusion hh)
  | .error _, .ok _ => .isFalse (fun hh => Except.noConfusion hh)

/-- Backend outcomes consumed by one `updateLocation` run. -/
structure UpdateOutcomes where
  oldDelete : Except Unit Unit
  upload : Except Unit String
  update : Except Unit Unit
deriving DecidableEq, Repr

/-- `updateLocation()`: no-op without an edit target; validates the
trimmed title; with a staged image, deletes the old image (when any,
failure swallowed) then uploads the replacement — an upload error
propagates to the outer catch, aborting the record update; otherwise
writes the record patch and on success reloads the store. -/
def updateLocation (st : EditState) (o : UpdateOutcomes) : List Event :=
  match st.editingLocationId with
  | none => []
  | some lid =>
    let title := jsTrim st.editTitle
    if title = "" then [.showErrE "Title is required!"]
    else
      let imgStep : List Event × Except Unit Unit :=
        if st.selectedEditImage then
          let delEvs :=
            match st.currentLocationImageUrl with
            | some url => deleteImageFromStorage url o.oldDelete
            | none => []
          let up := uploadImageToStorage o.upload
          match up.2 with
          | .ok _ => (delEvs ++ up.1, .ok ())
          | .error e => (delEvs ++ up.1, .error e)
        else ([], .ok ())
      match imgStep.2 with
      | .error _ =>
        imgStep.1 ++ [.showErrE "Failed to update location. Please try again."]
      | .ok _ =>
        imgStep.1 ++ [.updateDocE lid] ++
        match o.update with
        | .ok _ => [.reloadE, .showOkE "Location updated successfully!"]
        | .error _ => [.showErrE "Failed to update location. Please try again."]

/-- The creation-modal state read and written by `submitNewLocation`. -/
structure CreateState where
  newTitle : String
  newNotes : String
  newAddress : String
  newImageInput : String
  newImagePreview : String
  selectedNewImage : Bool
  tempMarker : Bool
  creationModalOpen : Bool
  creationMode : Bool
deriving DecidableEq, Repr

/-- Backend outcomes consumed by one `submitNewLocation` run. -/
structure CreateOutcomes where
  add : Except Unit String
  upload : Except Unit String
  patch : Except Unit Unit
deriving DecidableEq, Repr

/-- `submitNewLocation()`: validates the trimmed title (no backend
call and no state change on failure); creates the record; a staged
image is then uploaded and the record patched with its URL inside an
inner try — any image-step failure only warns that the image failed;
finally the form is cleared, creation mode toggled off, the store
reloaded and success shown.  A failed record creation aborts with the
total-failure message. -/
def submitNewLocation (st : CreateState) (o : CreateOutcomes) :
    List Event × CreateState :=
  let title := jsTrim st.newTitle
  if title = "" then ([.showErrE "Title is required!"], st)
  else
    match o.add with
    | .error _ =>
      ([.addDocE, .showErrE "Failed to add location. Please try again."], st)
    | .ok locationId =>
      let imgEvs : List Event :=
        if st.selectedNewImage then
          let up := uploadImageToStorage o.upload
          match up.2 with
          | .ok _ =>
            match o.patch with
            | .ok _ => up.1 ++ [.updateDocE locationId]
            | .error _ => up.1 ++ [.updateDocE locationId,
                .showErrE "Location created but image upload failed. You can add an image by editing the location."]
          | .error _ => up.1 ++
              [.showErrE "Location created but image upload failed. You can add an image by editing the location."]
        else []
      ([.addDocE] ++ imgEvs ++
         [.reloadE, .showOkE "Location added successfully!"],
       { st with newTitle := "", newNotes := "", newAddress := "",
                 newImageInput := "", newImagePreview := "",
                 selectedNewImage := false, creationModalOpen := false,
                 tempMarker := false, creationMode := !st.creationMode })

/-- Backend outcomes consumed by one `deleteLocationById` run: the
record read (`some (some url)` = exists with image, `some none` =
exists without, `none` = absent), the best-effort image delete, and
the record delete. -/
structure DeleteOutcomes where
  get : Except Unit (Option (Option String))
  imgDelete : Except Unit Unit
  delete : Except Unit Unit
deriving DecidableEq, Repr

/-- `deleteLocationById(locationId)`: reads the record to find its
image, best-effort deletes the image, deletes the record, and on
success reloads the store; a read or record-delete error is caught
with one error message. -/
def deleteLocationById (locationId : String) (o : DeleteOutcomes) :
    List Event :=
  [Event.getDocE locationId] ++
  match o.get with
  | .error _ => [.showErrE "Failed to delete location. Please try again."]
  | .ok docOpt =>
    (match docOpt with
     | some (some url) => deleteImageFromStorage url o.imgDelete
     | _ => []) ++
    [.deleteDocE locationId] ++
    match o.delete with
    | .ok _ => [.reloadE, .showOkE "Location deleted successfully!"]
    | .error _ => [.showErrE "Failed to delete location. Please try again."]

/-- Backend outcomes consumed by one `handleRemoveImage` run. -/
structure RemoveImageOutcomes where
  imgDelete : Except Unit Unit
  update : Except Unit Unit
deriving DecidableEq, Repr

/-- `handleRemoveImage()`: no-op without both a stored image URL and
an edit target, or without confirmation; deletes the stored image
(failure swallowed) and patches the record's imageUrl to null; on
success it only updates the edit-modal UI in place (clearing the
remembered image URL) — it does not reload the store. -/
def handleRemoveImage (st : EditState) (confirmed : Bool)
    (o : RemoveImageOutcomes) : List Event × EditState :=
  match st.currentLocationImageUrl, st.editingLocationId with
  | some url, some lid =>
    if confirmed then
      let delEvs := deleteImageFromStorage url o.imgDelete
      match o.update with
      | .ok _ =>
        (delEvs ++ [.updateDocE lid, .showOkE "Image removed successfully!"],
         { st with currentLocationImageUrl := none })
      | .error _ =>
        (delEvs ++ [.updateDocE lid,
           .showErrE "Failed to remove image. Please try again."], st)
    else ([], st)
  | _, _ => ([], st)

/-- The inclusion test of the first pass, named: a document is kept
iff neither parsed coordinate is NaN. -/
def includedDoc (d : RawDoc) : Bool :=
  !(parseFloat d.latitude).isNaN && !(parseFloat d.longitude).isNaN

/-- The `locationData` entry built for a kept document. -/
def mkLocationData (d : RawDoc) : LocationData :=
  ⟨d.id, jsOrStr d.title "Untitled Location", jsOrStr d.notes "",
   jsOrStr d.address "", jsOrStr d.userId "", parseFloat d.latitude,
   parseFloat d.longitude⟩

/-- Distinct-owner accumulation over the kept location data: add each
non-empty userId in encounter order. -/
def ownerFold (s : List String) (lds : List LocationData) : List String :=
  lds.foldl (fun s2 ld => if ld.userId ≠ "" then insertUnique s2 ld.userId else s2) s

/-- A concrete marker view-model for counterexample states. -/
def exMarker : MarkerObj :=
  ⟨"L0", "Title", "", "", "Owner", "u1", .fin 1, .fin 2, [], []⟩

/-- A store state with one marker both in memory and rendered. -/
def exStore : StoreState := ⟨[exMarker], [exMarker]⟩

/-- An edit-modal state with a stored image, used against
`handleRemoveImage`. -/
def exEditRemove : EditState :=
  ⟨some "L1", "t", "", "", false, some "https://s/o/pic.png?alt=media"⟩

/-- An edit-modal state with a staged replacement image and an
existing stored image. -/
def exEditC3 : EditState :=
  ⟨some "L1", "T", "", "", true, some "https://s/o/pic.png?alt=media"⟩

/-- Outcomes in which the storage upload fails but everything else
would succeed. -/
def exUpdOutC3 : UpdateOutcomes := ⟨.ok (), .error (), .ok ()⟩

/-- A document whose latitude parses to positive Infinity (finite it
is not) and whose longitude parses to 0. -/
def exDocInf : RawDoc :=
  ⟨"locInf", .str "Infinity", .str "0", some "T", none, none, some "u9",
   none, none, none⟩

/-- A document with valid coordinates and no textual fields at all. -/
def exDocUntitled : RawDoc :=
  ⟨"locU", .num (.fin 3), .str "4.5", none, none, none, none, none, none,
   none⟩

/-- `t` occurs as a contiguous substring of `s` (witnessed by an
explicit decomposition, in left-associated form). -/
def containsSub (s t : String) : Prop :=
  ∃ p r, s = (p ++ t) ++ r

/-! ### Helper lemmas -/

theorem containsSub.appL {s t : String} (u : String) (h : containsSub s t) :
    containsSub (s ++ u) t := by
  obtain ⟨p, r, rfl⟩ := h
  exact ⟨p, r ++ u, by rw [String.append_assoc]⟩

theorem containsSub.appR {s t : String} (u : String) (h : containsSub s t) :
    containsSub (u ++ s) t := by
  obtain ⟨p, r, rfl⟩ := h
  exact ⟨u ++ p, r, by simp [String.append_assoc]⟩

theorem char_toNat_ofNat_valid (n : ℕ) (h : n < 55296) :
    (Char.ofNat n).toNat = n := by
  unfold Char.ofNat
  rw [dif_pos (Or.inl h)]
  rfl

theorem isWhitespace_of_toNat (d : Char)
    (hd : d.toNat ≠ 32 ∧ d.toNat ≠ 9 ∧ d.toNat ≠ 13 ∧ d.toNat ≠ 10) :
    d.isWhitespace = false := by
  unfold Char.isWhitespace
  simp only [Bool.or_eq_false_iff, decide_eq_false_iff_not]
  refine ⟨⟨⟨?_, ?_⟩, ?_⟩, ?_⟩ <;> intro he
  · exact hd.1 (by rw [he]; rfl)
  · exact hd.2.1 (by rw [he]; rfl)
  · exact hd.2.2.1 (by rw [he]; rfl)
  · exact hd.2.2.2 (by rw [he]; rfl)

/-- ASCII case mapping never turns a whitespace character into a
non-whitespace one or vice versa. -/
theorem isWhitespace_toLower (c : Char) :
    (Char.toLower c).isWhitespace = c.isWhitespace := by
  by_cases h : c.toNat ≥ 65 ∧ c.toNat ≤ 90
  · have hlow : Char.toLower c = Char.ofNat (c.toNat + 32) := by
      unfold Char.toLower
      simp [h]
    rw [hlow]
    have hofn : (Char.ofNat (c.toNat + 32)).toNat = c.toNat + 32 :=
      char_toNat_ofNat_valid _ (by omega)
    rw [isWhitespace_of_toNat _ (by omega), isWhitespace_of_toNat c (by omega)]
  · have hlow : Char.toLower c = c := by
      unfold Char.toLower
      simp [h]
    rw [hlow]

theorem dropWhile_ws_map_toLower (l : List Char) :
    (l.map Char.toLower).dropWhile Char.isWhitespace =
      (l.dropWhile Char.isWhitespace).map Char.toLower := by
  rw [List.dropWhile_map]
  have hp : (Char.isWhitespace ∘ Char.toLower) = Char.isWhitespace := by
    funext c
    exact isWhitespace_toLower c
  rw [hp]

/-- Trimming and lowercasing commute. -/
theorem jsToLower_jsTrim (q : String) :
    jsToLower (jsTrim q) = jsTrim (jsToLower q) := by
  unfold jsToLower jsTrim
  congr 1
  rw [List.map_reverse, ← dropWhile_ws_map_toLower, List.map_reverse,
      ← dropWhile_ws_map_toLower]

/-- The trace of `deleteImageFromStorage` is empty or one storage
delete, for every outcome. -/
theorem deleteImage_events (url : String) (oc : Except Unit Unit) :
    deleteImageFromStorage url oc = [] ∨
      ∃ p, deleteImageFromStorage url oc = [Event.stDelete p] := by
  unfold deleteImageFromStorage
  cases (jsSplit url "/o/").get? 1 with
  | none => simp
  | some urlParts =>
    by_cases h : urlParts = "" <;> cases oc <;> simp [h]

theorem reloadE_not_mem_deleteImage (url : String) (oc : Except Unit Unit) :
    Event.reloadE ∉ deleteImageFromStorage url oc := by
  rcases deleteImage_events url oc with h | ⟨p, h⟩ <;> simp [h]

theorem updateDocE_not_mem_deleteImage (lid url : String)
    (oc : Except Unit Unit) :
    Event.updateDocE lid ∉ deleteImageFromStorage url oc := by
  rcases deleteImage_events url oc with h | ⟨p, h⟩ <;> simp [h]

/-! ### C1 — Location Store reload failure -/

/-- C1: false as stated — on a failed fetch the previously rendered
map markers are NOT left exactly as they were before the reload
started: `markers.clearLayers()` runs before the fetch, so the
rendered set is empty afterwards. -/
theorem c1_counterexample :
    ¬ (loadLocationsFromFirestore exStore [] (fun _ => .failure)
        (.error ())).1.rendered = exStore.rendered := by
  decide

/-- C1 (amended): if the backend fetch of a reload fails, the
operation aborts without touching the in-memory marker list or the
profile cache and surfaces exactly one user-visible error — but the
previously rendered map markers have already been cleared when the
fetch starts, so the map is left without markers rather than with the
old ones. -/
theorem c1_amended (st : StoreState) (c : Cache)
    (users : String → FetchOutcome) :
    loadLocationsFromFirestore st c users (.error ()) =
      (⟨st.allMarkers, []⟩, c,
       ["Failed to load locations. Please refresh the page."]) := rfl

/-! ### C2 — reload after successful mutations -/

/-- C2: false as stated — a successful Remove-image-only operation
(storage delete and record patch both succeed) triggers no Location
Store reload. -/
theorem c2_counterexample :
    Event.reloadE ∉ (handleRemoveImage exEditRemove true ⟨.ok (), .ok ()⟩).1 := by
  decide

/-- C2 (amended): Create, Update and Delete each trigger a full
Location Store reload after their backend record write succeeds;
Remove-image-only never does — on success it only patches the
edit-modal UI in place. -/
theorem c2_amended :
    (∀ (st : CreateState) (o : CreateOutcomes) (lid : String),
        jsTrim st.newTitle ≠ "" → o.add = .ok lid →
        Event.reloadE ∈ (submitNewLocation st o).1) ∧
    (∀ (st : EditState) (o : UpdateOutcomes) (lid : String),
        st.editingLocationId = some lid → jsTrim st.editTitle ≠ "" →
        (st.selectedEditImage = true → ∃ url, o.upload = .ok url) →
        o.update = .ok () →
        Event.reloadE ∈ updateLocation st o) ∧
    (∀ (lid : String) (o : DeleteOutcomes) (d : Option (Option String)),
        o.get = .ok d → o.delete = .ok () →
        Event.reloadE ∈ deleteLocationById lid o) ∧
    (∀ (st : EditState) (confirmed : Bool) (o : RemoveImageOutcomes),
        Event.reloadE ∉ (handleRemoveImage st confirmed o).1) := by
  refine ⟨?_, ?_, ?_, ?_⟩
  · intro st o lid ht ha
    simp [submitNewLocation, ht, ha]
  · intro st o lid he ht himg hupd
    cases hsel : st.selectedEditImage with
    | false => simp [updateLocation, he, ht, hsel, hupd]
    | true =>
      obtain ⟨url, hu⟩ := himg hsel
      simp [updateLocation, he, ht, hsel, hu, hupd, uploadImageToStorage]
  · intro lid o d hget hdel
    simp [deleteLocationById, hget, hdel]
  · intro st confirmed o
    cases hcu : st.currentLocationImageUrl with
    | none => simp [handleRemoveImage, hcu]
    | some url =>
      cases he : st.editingLocationId with
      | none => simp [handleRemoveImage, hcu, he]
      | some lid =>
        cases confirmed with
        | false => simp [handleRemoveImage, hcu, he]
        | true =>
          cases hu : o.update with
          | ok v =>
            simp [handleRemoveImage, hcu, he, hu, reloadE_not_mem_deleteImage]
          | error e =>
            simp [handleRemoveImage, hcu, he, hu, reloadE_not_mem_deleteImage]

/-- Witness for C2 (amended) at concrete inputs. -/
theorem c2_witness :
    Event.reloadE ∈ (submitNewLocation
        ⟨"T", "", "", "", "", false, false, true, true⟩
        ⟨.ok "id1", .ok "u", .ok ()⟩).1 ∧
    Event.reloadE ∈ updateLocation
        ⟨some "L1", "T", "", "", false, none⟩ ⟨.ok (), .ok "u", .ok ()⟩ ∧
    Event.reloadE ∈ deleteLocationById "L2" ⟨.ok none, .ok (), .ok ()⟩ ∧
    Event.reloadE ∉ (handleRemoveImage exEditRemove false ⟨.ok (), .ok ()⟩).1 :=
  ⟨c2_amended.1 _ _ "id1" (by decide) rfl,
   c2_amended.2.1 _ _ "L1" rfl (by decide) (fun h => absurd h (by decide)) rfl,
   c2_amended.2.2.1 "L2" _ none rfl rfl,
   c2_amended.2.2.2 _ _ _⟩

/-! ### C3 — partial success on image upload failure -/

/-- C3: false as stated for Update — when the staged image's upload
fails, the record patch is never issued (the owning record mutation
does not complete) and the generic total-failure message is shown
instead of an image-only warning. -/
theorem c3_counterexample :
    Event.updateDocE "L1" ∉ updateLocation exEditC3 exUpdOutC3 ∧
    Event.showErrE "Failed to update location. Please try again." ∈
      updateLocation exEditC3 exUpdOutC3 := by
  decide

/-- C3 (amended): for Create, a staged image's upload failure still
leaves the record created, warns with the distinct image-only message
(never the total-failure one), and the operation completes with reload
and success; for Update, a staged image's upload failure aborts the
whole operation — the record patch is not issued and the generic
update-failure message is shown. -/
theorem c3_amended :
    (∀ (st : CreateState) (o : CreateOutcomes) (lid : String),
        jsTrim st.newTitle ≠ "" → st.selectedNewImage = true →
        o.add = .ok lid → o.upload = .error () →
        (submitNewLocation st o).1 =
          [.addDocE, .stUpload,
           .showErrE "Location created but image upload failed. You can add an image by editing the location.",
           .reloadE, .showOkE "Location added successfully!"] ∧
        Event.showErrE "Failed to add location. Please try again." ∉
          (submitNewLocation st o).1) ∧
    (∀ (st : EditState) (o : UpdateOutcomes) (lid : String),
        st.editingLocationId = some lid → jsTrim st.editTitle ≠ "" →
        st.selectedEditImage = true → o.upload = .error () →
        Event.updateDocE lid ∉ updateLocation st o ∧
        Event.showErrE "Failed to update location. Please try again." ∈
          updateLocation st o) := by
  constructor
  · intro st o lid ht hsel ha hu
    have htr : (submitNewLocation st o).1 =
        [.addDocE, .stUpload,
         .showErrE "Location created but image upload failed. You can add an image by editing the location.",
         .reloadE, .showOkE "Location added successfully!"] := by
      simp [submitNewLocation, ht, hsel, ha, hu, uploadImageToStorage]
    refine ⟨htr, ?_⟩
    rw [htr]
    decide
  · intro st o lid he ht hsel hu
    cases hcu : st.currentLocationImageUrl with
    | none =>
      constructor
      · simp [updateLocation, he, ht, hsel, hu, hcu, uploadImageToStorage]
      · simp [updateLocation, he, ht, hsel, hu, hcu, uploadImageToStorage]
    | some url =>
      constructor
      · simp [updateLocation, he, ht, hsel, hu, hcu, uploadImageToStorage,
              updateDocE_not_mem_deleteImage]
      · simp [updateLocation, he, ht, hsel, hu, hcu, uploadImageToStorage]

/-- Witness for C3 (amended) at concrete inputs. -/
theorem c3_witness :
    ((submitNewLocation ⟨"T", "", "", "", "", true, true, true, true⟩
        ⟨.ok "id1", .error (), .ok ()⟩).1 =
      [.addDocE, .stUpload,
       .showErrE "Location created but image upload failed. You can add an image by editing the location.",
       .reloadE, .showOkE "Location added successfully!"] ∧
     Event.showErrE "Failed to add location. Please try again." ∉
       (submitNewLocation ⟨"T", "", "", "", "", true, true, true, true⟩
         ⟨.ok "id1", .error (), .ok ()⟩).1) ∧
    (Event.updateDocE "L9" ∉ updateLocation
        ⟨some "L9", "T", "", "", true, none⟩ ⟨.ok (), .error (), .ok ()⟩ ∧
     Event.showErrE "Failed to update location. Please try again." ∈
       updateLocation ⟨some "L9", "T", "", "", true, none⟩
         ⟨.ok (), .error (), .ok ()⟩) :=
  ⟨c3_amended.1 _ _ "id1" (by decide) rfl rfl rfl,
   c3_amended.2 _ _ "L9" rfl (by decide) rfl rfl⟩

/-! ### C8 — Create validation -/

/-- C8: a Create submission whose title is empty after trimming shows
the validation message, performs no backend events at all (in
particular no backend write), and leaves the pending form state
untouched. -/
theorem c8_theorem (st : CreateState) (o : CreateOutcomes)
    (h : jsTrim st.newTitle = "") :
    submitNewLocation st o = ([.showErrE "Title is required!"], st) ∧
    ∀ e ∈ (submitNewLocation st o).1, e.isBackendWrite = false := by
  have h1 : submitNewLocation st o = ([.showErrE "Title is required!"], st) := by
    simp [submitNewLocation, h]
  refine ⟨h1, ?_⟩
  rw [h1]
  intro e he
  simp at he
  subst he
  rfl

/-- Witness for C8 at a concrete whitespace-only title. -/
theorem c8_witness :
    submitNewLocation ⟨"   ", "note", "addr", "f.png", "p", true, true, true, true⟩
        ⟨.ok "id1", .ok "u", .ok ()⟩ =
      ([.showErrE "Title is required!"],
       ⟨"   ", "note", "addr", "f.png", "p", true, true, true, true⟩) ∧
    ∀ e ∈ (submitNewLocation ⟨"   ", "note", "addr", "f.png", "p", true, true, true, true⟩
        ⟨.ok "id1", .ok "u", .ok ()⟩).1, e.isBackendWrite = false :=
  c8_theorem _ _ (by decide)

/-! ### C9 — image replacement ordering -/

/-- C9: in an Update with a staged replacement image and an existing
stored image — whose URL contains the `/o/` marker of a storage
download URL followed by a non-empty path segment, as every
`getDownloadURL` result does — the trace starts with the storage
delete of the old image immediately followed by the upload of the new
one, for every delete outcome (so a failed delete still lets the
upload proceed) and every upload outcome. -/
theorem c9_theorem (st : EditState) (o : UpdateOutcomes) (lid url up : String)
    (he : st.editingLocationId = some lid) (ht : jsTrim st.editTitle ≠ "")
    (hsel : st.selectedEditImage = true)
    (hurl : st.currentLocationImageUrl = some url)
    (hsplit : (jsSplit url "/o/").get? 1 = some up) (hup : up ≠ "") :
    ∃ rest, updateLocation st o =
      Event.stDelete (decodeURIComponent ((jsSplit up "?").headD "")) ::
        Event.stUpload :: rest := by
  have hdel : deleteImageFromStorage url o.oldDelete =
      [Event.stDelete (decodeURIComponent ((jsSplit up "?").headD ""))] := by
    unfold deleteImageFromStorage
    rw [hsplit]
    cases o.oldDelete <;> simp [hup]
  cases hu : o.upload with
  | error e =>
    refine ⟨[Event.showErrE "Failed to update location. Please try again."], ?_⟩
    simp [updateLocation, he, ht, hsel, hurl, hdel, hu, uploadImageToStorage]
  | ok u =>
    cases huu : o.update with
    | ok v =>
      refine ⟨[Event.updateDocE lid, Event.reloadE,
               Event.showOkE "Location updated successfully!"], ?_⟩
      simp [updateLocation, he, ht, hsel, hurl, hdel, hu, huu,
            uploadImageToStorage]
    | error e =>
      refine ⟨[Event.updateDocE lid,
               Event.showErrE "Failed to update location. Please try again."], ?_⟩
      simp [updateLocation, he, ht, hsel, hurl, hdel, hu, huu,
            uploadImageToStorage]

/-- Witness for C9 at a concrete input whose old-image delete fails:
the delete request still precedes the upload, which still happens. -/
theorem c9_witness :
    ∃ rest, updateLocation
        ⟨some "L1", "T", "", "", true, some "https://s/o/pic.png?alt=media"⟩
        ⟨.error (), .ok "newUrl", .ok ()⟩ =
      Event.stDelete "pic.png" :: Event.stUpload :: rest := by
  have h := c9_theorem
      ⟨some "L1", "T", "", "", true, some "https://s/o/pic.png?alt=media"⟩
      ⟨.error (), .ok "newUrl", .ok ()⟩ "L1" "https://s/o/pic.png?alt=media"
      "pic.png?alt=media" rfl (by decide) rfl rfl (by decide) (by decide)
  have hs : decodeURIComponent ((jsSplit "pic.png?alt=media" "?").headD "") =
      "pic.png" := by decide
  rw [hs] at h
  exact h

/-! ### C4 / C10 — first-pass characterization -/

theorem firstPassStep_excluded (acc : List LocationData × List String)
    (d : RawDoc) (h : includedDoc d = false) : firstPassStep acc d = acc := by
  simp only [firstPassStep]
  unfold includedDoc at h
  rw [h]
  simp

theorem firstPassStep_included (acc : List LocationData × List String)
    (d : RawDoc) (h : includedDoc d = true) :
    firstPassStep acc d =
      (acc.1 ++ [mkLocationData d],
       if (mkLocationData d).userId ≠ ""
         then insertUnique acc.2 (mkLocationData d).userId else acc.2) := by
  simp only [firstPassStep]
  unfold includedDoc at h
  rw [h]
  simp [mkLocationData]

/-- The first pass, from any accumulator, appends exactly the kept
documents' location data and folds their owners into the owner set. -/
theorem firstPass_go (docs : List RawDoc) :
    ∀ acc : List LocationData × List String,
      docs.foldl firstPassStep acc =
        (acc.1 ++ (docs.filter includedDoc).map mkLocationData,
         ownerFold acc.2 ((docs.filter includedDoc).map mkLocationData)) := by
  induction docs with
  | nil => intro acc; simp [ownerFold]
  | cons d rest ih =>
    intro acc
    cases hinc : includedDoc d with
    | false =>
      rw [List.foldl_cons, firstPassStep_excluded acc d hinc,
          List.filter_cons_of_neg (by simp [hinc]), ih acc]
    | true =>
      rw [List.foldl_cons, firstPassStep_included acc d hinc,
          List.filter_cons_of_pos (by simp [hinc])]
      rw [ih]
      simp [ownerFold, List.append_assoc]

/-- C4: false as stated — a record whose latitude parses to the
non-finite value Infinity is NOT excluded: it appears in the visible
set and its ownerId enters the distinct-owner pass, because the code
only tests `isNaN`, not finiteness. -/
theorem c4_counterexample :
    (firstPass [exDocInf]).1 =
      [⟨"locInf", "T", "", "", "u9", .inf false, .fin 0⟩] ∧
    (firstPass [exDocInf]).2 = ["u9"] ∧
    parseFloat exDocInf.latitude = .inf false := by
  decide

/-- C4 (amended): a fetched record appears in the visible set, and
contributes its non-empty ownerId to the distinct-owner pass, exactly
when neither coordinate parses to NaN; records with a NaN-parsing
coordinate are excluded from both — but values parsing to ±Infinity
(non-finite, non-NaN) are not excluded. -/
theorem c4_amended (docs : List RawDoc) :
    (firstPass docs).1 = (docs.filter includedDoc).map mkLocationData ∧
    (firstPass docs).2 =
      ownerFold [] ((docs.filter includedDoc).map mkLocationData) ∧
    ∀ d : RawDoc, includedDoc d =
      (!(parseFloat d.latitude).isNaN && !(parseFloat d.longitude).isNaN) := by
  have h := firstPass_go docs ([], [])
  refine ⟨?_, ?_, fun d => rfl⟩
  · unfold firstPass
    rw [h]
    simp
  · unfold firstPass
    rw [h]

/-! ### C10 — defaulting of missing text fields -/

/-- C10: a fetched record with valid coordinates whose title is
missing or empty is not excluded — it enters the visible set with the
substitute title `"Untitled Location"`, and missing notes, address and
userId are substituted by the empty string. -/
theorem c10_theorem (docs : List RawDoc) (d : RawDoc) (hmem : d ∈ docs)
    (hlat : (parseFloat d.latitude).isNaN = false)
    (hlon : (parseFloat d.longitude).isNaN = false)
    (htitle : d.title = none ∨ d.title = some "") :
    mkLocationData d ∈ (firstPass docs).1 ∧
    (mkLocationData d).title = "Untitled Location" ∧
    (d.notes = none → (mkLocationData d).notes = "") ∧
    (d.address = none → (mkLocationData d).address = "") ∧
    (d.userId = none → (mkLocationData d).userId = "") := by
  have hinc : includedDoc d = true := by
    simp [includedDoc, hlat, hlon]
  have hfp : (firstPass docs).1 = (docs.filter includedDoc).map mkLocationData := by
    have h := firstPass_go docs ([], [])
    unfold firstPass
    rw [h]
    simp
  refine ⟨?_, ?_, ?_, ?_, ?_⟩
  · rw [hfp]
    exact List.mem_map_of_mem _ (List.mem_filter.mpr ⟨hmem, hinc⟩)
  · rcases htitle with h | h <;> simp [mkLocationData, jsOrStr, h]
  · intro h
    simp [mkLocationData, jsOrStr, h]
  · intro h
    simp [mkLocationData, jsOrStr, h]
  · intro h
    simp [mkLocationData, jsOrStr, h]

/-- Witness for C10 at a concrete untitled document. -/
theorem c10_witness :
    mkLocationData exDocUntitled ∈ (firstPass [exDocUntitled]).1 ∧
    (mkLocationData exDocUntitled).title = "Untitled Location" ∧
    (exDocUntitled.notes = none → (mkLocationData exDocUntitled).notes = "") ∧
    (exDocUntitled.address = none → (mkLocationData exDocUntitled).address = "") ∧
    (exDocUntitled.userId = none → (mkLocationData exDocUntitled).userId = "") :=
  c10_theorem [exDocUntitled] exDocUntitled (by simp) (by decide) (by decide)
    (Or.inl rfl)

/-! ### C5 — Profile Resolver memoization -/

theorem fetchUserProfile_cached (c : Cache) (u : String) (o : FetchOutcome)
    (p : Profile) (hu : u ≠ "") (hc : profGet c u = some p) :
    fetchUserProfile c u o = (p, c, false) := by
  unfold fetchUserProfile
  rw [if_neg hu, hc]

theorem fetchUserProfile_caches (c : Cache) (u : String) (o : FetchOutcome)
    (hu : u ≠ "") (hc : profGet c u = none) :
    profGet (fetchUserProfile c u o).2.1 u = some (fetchUserProfile c u o).1 ∧
    (fetchUserProfile c u o).2.2 = true := by
  unfold fetchUserProfile
  rw [if_neg hu, hc]
  cases o <;> simp [profGet, profSet, List.lookup]

theorem runResolves_cached (c : Cache) (u : String) (p : Profile)
    (outs : List FetchOutcome) (hu : u ≠ "") (hc : profGet c u = some p) :
    runResolves c u outs = (outs.map (fun _ => (p, false)), c) := by
  induction outs with
  | nil => rfl
  | cons o rest ih =>
    unfold runResolves
    rw [fetchUserProfile_cached c u o p hu hc]
    simp [ih]

/-- C5: for a sequence of `fetchUserProfile` calls with one non-empty
id not yet cached, only the first call fetches; every later call (for
any outcomes, after a found, absent, or failed first resolution)
returns the first call's cached profile without a backend fetch, and
a failed first fetch pins the default `Unknown User` profile for the
rest of the sequence. -/
theorem c5_theorem (c : Cache) (u : String) (o : FetchOutcome)
    (rest : List FetchOutcome) (hu : u ≠ "") (hfresh : profGet c u = none) :
    runResolves c u (o :: rest) =
      (((fetchUserProfile c u o).1, true) ::
         rest.map (fun _ => ((fetchUserProfile c u o).1, false)),
       (fetchUserProfile c u o).2.1) ∧
    (runResolves c u (o :: rest)).1.countP (fun r => r.2) = 1 ∧
    (o = .failure → (fetchUserProfile c u o).1 = defaultProfile) := by
  have hfetch := fetchUserProfile_caches c u o hu hfresh
  have hrun := runResolves_cached (fetchUserProfile c u o).2.1 u
    (fetchUserProfile c u o).1 rest hu hfetch.1
  have hmain : runResolves c u (o :: rest) =
      (((fetchUserProfile c u o).1, true) ::
         rest.map (fun _ => ((fetchUserProfile c u o).1, false)),
       (fetchUserProfile c u o).2.1) := by
    simp only [runResolves]
    rw [hrun]
    simp [hfetch.2]
  refine ⟨hmain, ?_, ?_⟩
  · rw [hmain]
    simp [List.countP_cons]
  · intro ho
    subst ho
    unfold fetchUserProfile
    rw [if_neg hu, hfresh]

/-- Witness for C5: a failed first resolution for a fresh id fetches
once, caches the default profile, and the second call reuses it. -/
theorem c5_witness :
    runResolves [] "u1" [.failure, .absent] =
      ([(defaultProfile, true), (defaultProfile, false)],
       [("u1", defaultProfile)]) := by
  have h := (c5_theorem [] "u1" .failure [.absent] (by decide) rfl).1
  rw [h]
  decide

/-! ### C6 — Search Filter -/

/-- C6: the code's visible set equals the spec formula (membership
decided by emptiness of the trimmed, lowercased query or substring
match on the four lowercased fields), and filtering is idempotent. -/
theorem c6_theorem (q : String) (all : List MarkerObj) :
    filterMarkers q all = visibleSpec q all ∧
    filterMarkers q (filterMarkers q all) = filterMarkers q all := by
  have hterm := jsToLower_jsTrim q
  constructor
  · unfold filterMarkers visibleSpec
    rw [← hterm]
    by_cases h : jsToLower (jsTrim q) = ""
    · rw [if_pos h]
      simp [h]
    · rw [if_neg h]
      apply List.filter_congr
      intro m _
      simp [markerMatches, h, Bool.or_assoc]
  · unfold filterMarkers
    by_cases h : jsToLower (jsTrim q) = ""
    · rw [if_pos h, if_pos h]
    · rw [if_neg h, if_neg h, List.filter_filter]
      apply List.filter_congr
      intro m _
      simp

/-! ### C7 — vote-score display -/

theorem voteScoreBlock_score (U D : ℕ) :
    containsSub (voteScoreBlock U D)
      (("Score: " ++ scoreSignOf ((U : ℤ) - D)) ++ toString ((U : ℤ) - D)) := by
  refine ⟨"<div style=\"margin: 8px 0; padding: 6px 10px; background: #f8f9fa; border-radius: 4px; border-left: 3px solid " ++
      scoreColorOf ((U : ℤ) - D) ++ ";\">\n            <strong style=\"color: " ++
      scoreColorOf ((U : ℤ) - D) ++ "; font-size: 14px;\">",
    "</strong>\n            <span style=\"color: #666; font-size: 12px; margin-left: 8px;\">(" ++
      "↑" ++ toString U ++ " ↓" ++ toString D ++ ")</span>\n        </div>", ?_⟩
  simp only [voteScoreBlock, String.append_assoc]

theorem voteScoreBlock_counts (U D : ℕ) :
    containsSub (voteScoreBlock U D)
      ((("↑" ++ toString U) ++ " ↓") ++ toString D) := by
  refine ⟨"<div style=\"margin: 8px 0; padding: 6px 10px; background: #f8f9fa; border-radius: 4px; border-left: 3px solid " ++
      scoreColorOf ((U : ℤ) - D) ++ ";\">\n            <strong style=\"color: " ++
      scoreColorOf ((U : ℤ) - D) ++ "; font-size: 14px;\">" ++ "Score: " ++
      scoreSignOf ((U : ℤ) - D) ++ toString ((U : ℤ) - D) ++
      "</strong>\n            <span style=\"color: #666; font-size: 12px; margin-left: 8px;\">(",
    ")</span>\n        </div>", ?_⟩
  simp only [voteScoreBlock, String.append_assoc]

/-- The popup content contains the vote-score block's substrings, for
every branch of the optional sections. -/
theorem createPopupContent_containsSub (locationId title : String)
    (lat lon : JSNum) (notes address user userId : String)
    (upvotes downvotes : List String) (currentUser : Option String)
    (t : String) (hb : containsSub (voteScoreBlock upvotes.length downvotes.length) t) :
    containsSub (createPopupContent locationId title lat lon notes address
      user userId upvotes downvotes currentUser) t := by
  simp only [createPopupContent]
  rcases currentUser with _ | uid
  · generalize hP : ("<b>" ++ title ++ "</b><br>") ++
      voteScoreBlock upvotes.length downvotes.length = P
    have h1 : containsSub P t := by
      rw [← hP]
      exact containsSub.appR _ hb
    repeat first
      | exact h1
      | apply containsSub.appL
      | split
  · generalize hP : ("<b>" ++ title ++ "</b><br>") ++
      voteScoreBlock upvotes.length downvotes.length = P
    have h1 : containsSub P t := by
      rw [← hP]
      exact containsSub.appR _ hb
    repeat first
      | exact h1
      | apply containsSub.appL
      | split

/-- C7: the popup's vote-score block shows `score = |upvotes| −
|downvotes|` with the claimed color/sign convention (positive → green
`#28a745` with a leading `+`, negative → red `#dc3545` with only the
minus sign carried by the number, zero → neutral gray `#666` with no
sign), and the counts rendered as `↑U ↓D`. -/
theorem c7_theorem (locationId title : String) (lat lon : JSNum)
    (notes address user userId : String) (upvotes downvotes : List String)
    (currentUser : Option String) :
    (0 < (upvotes.length : ℤ) - downvotes.length →
      scoreColorOf ((upvotes.length : ℤ) - downvotes.length) = "#28a745" ∧
      scoreSignOf ((upvotes.length : ℤ) - downvotes.length) = "+") ∧
    ((upvotes.length : ℤ) - downvotes.length < 0 →
      scoreColorOf ((upvotes.length : ℤ) - downvotes.length) = "#dc3545" ∧
      scoreSignOf ((upvotes.length : ℤ) - downvotes.length) = "") ∧
    ((upvotes.length : ℤ) - downvotes.length = 0 →
      scoreColorOf ((upvotes.length : ℤ) - downvotes.length) = "#666" ∧
      scoreSignOf ((upvotes.length : ℤ) - downvotes.length) = "") ∧
    containsSub (createPopupContent locationId title lat lon notes address
        user userId upvotes downvotes currentUser)
      (("Score: " ++ scoreSignOf ((upvotes.length : ℤ) - downvotes.length)) ++
        toString ((upvotes.length : ℤ) - downvotes.length)) ∧
    containsSub (createPopupContent locationId title lat lon notes address
        user userId upvotes downvotes currentUser)
      ((("↑" ++ toString upvotes.length) ++ " ↓") ++
        toString downvotes.length) := by
  refine ⟨?_, ?_, ?_, ?_, ?_⟩
  · intro h
    constructor
    · simp [scoreColorOf, h]
    · simp [scoreSignOf, h]
  · intro h
    constructor
    · have h2 : ¬ (0 < (upvotes.length : ℤ) - downvotes.length) := by omega
      simp [scoreColorOf, h, h2]
    · have h2 : ¬ (0 < (upvotes.length : ℤ) - downvotes.length) := by omega
      simp [scoreSignOf, h2]
  · intro h
    constructor
    · simp [scoreColorOf, h]
    · simp [scoreSignOf, h]
  · exact createPopupContent_containsSub _ _ _ _ _ _ _ _ _ _ _ _
      (voteScoreBlock_score _ _)
  · exact createPopupContent_containsSub _ _ _ _ _ _ _ _ _ _ _ _
      (voteScoreBlock_counts _ _)

/-- Witness for C7 at the spec's example inputs (scores 3, −2, 0). -/
theorem c7_witness :
    (scoreColorOf 3 = "#28a745" ∧ scoreSignOf 3 = "+") ∧
    (scoreColorOf (-2) = "#dc3545" ∧ scoreSignOf (-2) = "") ∧
    (scoreColorOf 0 = "#666" ∧ scoreSignOf 0 = "") ∧
    containsSub (createPopupContent "L1" "T" (.fin 1) (.fin 2) "" "" "" ""
        ["a", "b", "c"] [] none) (("Score: " ++ scoreSignOf 3) ++ toString (3 : ℤ)) := by
  have h := c7_theorem "L1" "T" (.fin 1) (.fin 2) "" "" "" ""
    ["a", "b", "c"] [] none
  have h2 := c7_theorem "x" "y" (.fin 1) (.fin 2) "" "" "" ""
    [] ["a", "b"] none
  have h3 := c7_theorem "x" "y" (.fin 1) (.fin 2) "" "" "" "" [] [] none
  refine ⟨h.1 (by decide), h2.2.1 (by decide), h3.2.2.1 (by decide), ?_⟩
  exact h.2.2.2.1

end MapApp
